import Mathlib

/-!
Verification of the multi-agent content pipeline
(`src/agents/base.py`, `src/pipeline/manager.py`, `src/utils/memory.py`,
`src/utils/monitoring.py`).

The Python source is shallowly embedded: every class becomes a structure,
every method a Lean function on that structure's state.  Wall-clock reads
(`datetime.now()`) become explicit `now : Nat` parameters (a strictly
increasing clock), and `datetime.now().strftime(..)` becomes an explicit
formatted-timestamp string parameter.  Python exceptions are modelled with
`Except String` / `Option`; dynamic attribute lookup (which can raise
`AttributeError`) is modelled against the explicit method tables of the
classes as written in the source.
-/

namespace Multiagent

/-- Embeds `AgentRole` enum, src/agents/base.py lines 14-20. -/
inductive AgentRole where
  | researcher
  | writer
  | editor
  | seo
  | image
  | publisher
deriving DecidableEq, Repr

/-- The `.value` of each enum member. -/
def AgentRole.value : AgentRole → String
  | .researcher => "researcher"
  | .writer => "writer"
  | .editor => "editor"
  | .seo => "seo"
  | .image => "image"
  | .publisher => "publisher"

/-- Embeds `AgentRole(s)`: the enum constructor from a value string; `none` models
the `ValueError` raised on an unknown value. -/
def AgentRole.ofValue (s : String) : Option AgentRole :=
  if s = "researcher" then some .researcher
  else if s = "writer" then some .writer
  else if s = "editor" then some .editor
  else if s = "seo" then some .seo
  else if s = "image" then some .image
  else if s = "publisher" then some .publisher
  else none

/-- Python `str()` of an enum member, as interpolated into f-strings. -/
def AgentRole.pyStr : AgentRole → String
  | .researcher => "AgentRole.RESEARCHER"
  | .writer => "AgentRole.WRITER"
  | .editor => "AgentRole.EDITOR"
  | .seo => "AgentRole.SEO"
  | .image => "AgentRole.IMAGE"
  | .publisher => "AgentRole.PUBLISHER"

/-- Python `str()` of an `Optional[AgentRole]` (`None` prints as "None"). -/
def pyStrOptRole : Option AgentRole → String
  | none => "None"
  | some r => r.pyStr

/-- A primitive payload value (string / int / None), enough structure for
every payload the pipeline builds. -/
inductive Prim where
  | pstr (s : String)
  | pint (n : Int)
  | pnone
deriving DecidableEq, Repr

/-- A message `content` value: Python `Any`.  The pipeline only ever builds
string-keyed dicts, but `content` is dynamically typed, so a bare string
and `None` are representable too (the routing layer treats it as opaque). -/
inductive Content where
  | cdict (kvs : List (String × Prim))
  | cstr (s : String)
  | cnone
deriving DecidableEq, Repr

/-- Embeds `dict.get(k)` on an association list (first binding wins). -/
def dictGet : List (String × Prim) → String → Option Prim
  | [], _ => none
  | (k, v) :: rest, key => if key = k then some v else dictGet rest key

/-- Embeds `Message`, src/agents/base.py lines 22-60.  `receiver` is annotated
`AgentRole` in the source but Python does not enforce the annotation and
`_create_error_message` can pass `None` (the original sender), so it is
embedded as `Option AgentRole`.  `timestamp` is the `datetime.now()`
reading at construction. -/
structure Message where
  sender : Option AgentRole
  receiver : Option AgentRole
  content : Content
  message_type : String
  timestamp : Nat
  id : String
deriving DecidableEq, Repr

/-- Embeds `Message._generate_id`: `f"TIMESTAMP-SENDER-RECEIVER"` (line 37-39). -/
def generate_id (timestamp : Nat) (sender receiver : Option AgentRole) : String :=
  toString timestamp ++ "-" ++ pyStrOptRole sender ++ "-" ++ pyStrOptRole receiver

/-- Embeds `Message.__init__` (lines 23-35): stores the fields, stamps the current
time and derives the id from it. -/
def Message.create (sender receiver : Option AgentRole) (content : Content)
    (message_type : String) (now : Nat) : Message :=
  { sender := sender
    receiver := receiver
    content := content
    message_type := message_type
    timestamp := now
    id := generate_id now sender receiver }

/-- The dictionary produced by `Message.to_dict` (lines 41-50). -/
structure MsgDict where
  id : String
  sender : Option String
  receiver : String
  content : Content
  message_type : String
  timestamp : Nat
deriving DecidableEq, Repr

/-- Embeds `Message.to_dict` (lines 41-50).  `self.receiver.value` raises
`AttributeError` when `receiver` is `None`, modelled by `none`. -/
def Message.to_dict (m : Message) : Option MsgDict :=
  match m.receiver with
  | none => none
  | some r =>
      some { id := m.id
             sender := m.sender.map AgentRole.value
             receiver := r.value
             content := m.content
             message_type := m.message_type
             timestamp := m.timestamp }

/-- Embeds `Message.from_dict` (lines 52-60): rebuilds the roles from their value
strings and calls the constructor, so `timestamp` and `id` are freshly
generated from the deserialization-time clock `now`; the stored `id` and
`timestamp` entries of the dictionary are ignored.  `AgentRole(x)` raising
`ValueError` on an unknown value is modelled by `none`; the guard
`if data["sender"]` is Python truthiness, so an empty sender string also
maps to a `None` sender. -/
def Message.from_dict (d : MsgDict) (now : Nat) : Option Message :=
  let sender? : Option (Option AgentRole) :=
    match d.sender with
    | none => some none
    | some s => if s = "" then some none else (AgentRole.ofValue s).map some
  match sender?, AgentRole.ofValue d.receiver with
  | some s, some r => some (Message.create s (some r) d.content d.message_type now)
  | _, _ => none

/-! ## Agent memory (src/utils/memory.py) -/

/-- One stored interaction, `AgentMemory._format_interaction` (lines 40-46):
`type(message).__name__` is always "Message" here, and `message.to_dict()`
is embedded below (it can raise).  The pattern / long-term bookkeeping of
`store_interaction` is internal to the memory and read by no claim, so only
the `short_term` deque is carried. -/
structure Interaction where
  timestamp : Nat
  content : MsgDict
  itype : String
deriving DecidableEq, Repr

/-- Embeds `_format_interaction`: `none` models the `AttributeError` that
`message.to_dict()` raises when the receiver is `None`. -/
def format_interaction (m : Message) (now : Nat) : Option Interaction :=
  (m.to_dict).map fun d => { timestamp := now, content := d, itype := "Message" }

/-- Embeds `AgentMemory` state: the `short_term` deque with its `maxlen`
(`deque(maxlen=config.get("memory.short_term_size", 100))`, line 17). -/
structure AgentMemory where
  short_term : List Interaction
  maxlen : Nat
deriving DecidableEq, Repr

/-- Embeds `deque.append` on a `maxlen`-bounded deque: drops from the front once
full. -/
def dequeAppend (maxlen : Nat) (l : List Interaction) (i : Interaction) : List Interaction :=
  let l' := l ++ [i]
  l'.drop (l'.length - maxlen)

/-- Embeds `AgentMemory.store_interaction` (lines 27-37): formats the message and
appends it to short-term memory; `none` models the exception propagating
out of `_format_interaction` when the message has no receiver. -/
def AgentMemory.store_interaction (mem : AgentMemory) (m : Message) (now : Nat) :
    Option AgentMemory :=
  (format_interaction m now).map fun i =>
    { mem with short_term := dequeAppend mem.maxlen mem.short_term i }

/-- The methods `class AgentMemory` defines (src/utils/memory.py); Python
attribute lookup on an `AgentMemory` instance resolves method names against
this table.  Note there is `save_memory` and `cleanup` but no `save`. -/
def AgentMemory.methodNames : List String :=
  ["store_interaction", "recall", "summarize", "load_memory", "save_memory", "cleanup"]

/-- The methods `class PipelineMonitor` defines (src/utils/monitoring.py).
Note there is `cleanup` and `mark_pipeline_complete` but no `shutdown`. -/
def PipelineMonitor.methodNames : List String :=
  ["track_pipeline", "log_event", "record_metric", "get_pipeline_metrics",
   "get_events", "get_metrics", "get_alerts", "mark_pipeline_complete", "cleanup"]

/-- Python attribute lookup for a method: succeeds iff the class defines it. -/
def hasMethod (methods : List String) (name : String) : Bool :=
  methods.contains name

/-! ## BaseAgent (src/agents/base.py lines 62-154) -/

/-- The mutable state of one `BaseAgent`: its role, `asyncio.Queue` (FIFO:
`put` appends, `get` takes the head), memory, `running` flag, and the key
set of its `agent_registry` dict (the registered roles; the values are the
agents themselves, resolved through the system-wide agent table below).
`BaseAgent.__init__` starts with an empty queue, `running = True` and an
empty registry (lines 72-75). -/
structure AgentState where
  role : AgentRole
  message_queue : List Message
  memory : AgentMemory
  running : Bool
  agent_registry : List AgentRole
deriving DecidableEq, Repr

/-- Embeds `BaseAgent.__init__` (lines 63-77); `stsize` is the configured
`memory.short_term_size` (default 100). -/
def BaseAgent.new (r : AgentRole) (stsize : Nat) : AgentState :=
  { role := r
    message_queue := []
    memory := { short_term := [], maxlen := stsize }
    running := true
    agent_registry := [] }

/-- Embeds `BaseAgent._create_error_message` (lines 116-126): an `error`-kind
message addressed back to the original message's sender. -/
def create_error_message (role : AgentRole) (orig : Message) (err : String)
    (now : Nat) : Message :=
  Message.create (some role) orig.sender
    (.cdict [("error", .pstr err), ("original_message_id", .pstr orig.id)])
    "error" now

/-- Embeds `BaseAgent._process_control` (lines 109-114): reads
`message.content.get("command")`; a non-dict content raises
`AttributeError` (content has no `.get`), modelled by `.error`. -/
def process_control (ag : AgentState) (m : Message) :
    Except String (AgentState × Option Message) :=
  match m.content with
  | .cdict kvs =>
      if dictGet kvs "command" = some (.pstr "shutdown") then
        .ok ({ ag with running := false }, none)
      else
        .ok (ag, none)
  | _ => .error "AttributeError: content object has no attribute get"

/-- The subclass-supplied `_process_task` hook (abstract in `BaseAgent`,
line 100-103): an oracle from role and message to either a result
(`Optional[Message]`) or a raised exception. -/
abbrev ProcOracle : Type :=
  AgentRole → Message → Except String (Option Message)

/-- Embeds `BaseAgent.process_message` (lines 79-98): store the interaction, then
dispatch on `message_type`; any exception inside the `try` is caught and
converted to an error reply.  Side effects that happened before the
exception (the stored interaction, a cleared `running` flag) persist, as
they do in Python. -/
def process_message (ag : AgentState) (proc : ProcOracle) (m : Message)
    (now : Nat) : AgentState × Option Message :=
  match ag.memory.store_interaction m now with
  | none =>
      -- `message.to_dict()` raised inside `memory.store_interaction`
      (ag, some (create_error_message ag.role m
        "AttributeError: NoneType object has no attribute value" now))
  | some mem' =>
      let ag' := { ag with memory := mem' }
      if m.message_type = "task" then
        match proc ag'.role m with
        | .ok r => (ag', r)
        | .error e => (ag', some (create_error_message ag'.role m e now))
      else if m.message_type = "query" then
        -- `BaseAgent._process_query` returns None (lines 105-107)
        (ag', none)
      else if m.message_type = "control" then
        match process_control ag' m with
        | .ok r => r
        | .error e => (ag', some (create_error_message ag'.role m e now))
      else
        -- unknown type: logged as a warning, None returned (lines 92-94)
        (ag', none)

/-! ## The agent table and routing -/

/-- Embeds `ContentPipeline.agents` (src/pipeline/manager.py lines 27-34): one
agent per role. -/
structure AgentTable where
  researcher : AgentState
  writer : AgentState
  editor : AgentState
  seo : AgentState
  image : AgentState
  publisher : AgentState
deriving DecidableEq, Repr

/-- Embeds `self.agents[role]`. -/
def AgentTable.get (tbl : AgentTable) : AgentRole → AgentState
  | .researcher => tbl.researcher
  | .writer => tbl.writer
  | .editor => tbl.editor
  | .seo => tbl.seo
  | .image => tbl.image
  | .publisher => tbl.publisher

/-- Replace one agent's state in the table. -/
def AgentTable.set (tbl : AgentTable) : AgentRole → AgentState → AgentTable
  | .researcher, a => { tbl with researcher := a }
  | .writer, a => { tbl with writer := a }
  | .editor, a => { tbl with editor := a }
  | .seo, a => { tbl with seo := a }
  | .image, a => { tbl with image := a }
  | .publisher, a => { tbl with publisher := a }

/-- Apply `f` to every agent in the table. -/
def AgentTable.map (f : AgentState → AgentState) (tbl : AgentTable) : AgentTable :=
  { researcher := f tbl.researcher
    writer := f tbl.writer
    editor := f tbl.editor
    seo := f tbl.seo
    image := f tbl.image
    publisher := f tbl.publisher }

/-- Embeds `asyncio.Queue.put`: FIFO append to the target agent's mailbox. -/
def AgentState.enqueue (ag : AgentState) (m : Message) : AgentState :=
  { ag with message_queue := ag.message_queue ++ [m] }

/-- Embeds `BaseAgent.send_message` (lines 142-148): resolve
`self.agent_registry.get(message.receiver)`; on a hit, `put` the message
into the target's queue; on a miss (an unregistered role, or a `None`
receiver, which no dict key equals) only `logger.error` runs — the message
is dropped, nothing is raised, and no other state changes. -/
def send_message (tbl : AgentTable) (senderRole : AgentRole) (m : Message) :
    AgentTable :=
  match m.receiver with
  | some r =>
      if r ∈ (tbl.get senderRole).agent_registry then
        tbl.set r ((tbl.get r).enqueue m)
      else
        tbl
  | none => tbl

/-- One iteration of `BaseAgent.run` (lines 128-140) for the agent in role
`r`: if `running` and a message is queued, dequeue it, process it, and
`send_message` the response if there is one.  With an empty queue the
coroutine is suspended on `await self.message_queue.get()`; with
`running = False` the loop has exited; both are no-ops here. -/
def agent_step (tbl : AgentTable) (r : AgentRole) (proc : ProcOracle)
    (now : Nat) : AgentTable :=
  let ag := tbl.get r
  if ag.running then
    match ag.message_queue with
    | [] => tbl
    | m :: rest =>
        let ag₁ := { ag with message_queue := rest }
        let (ag₂, resp) := process_message ag₁ proc m now
        let tbl₁ := tbl.set r ag₂
        match resp with
        | some out => send_message tbl₁ r out
        | none => tbl₁
  else tbl

/-- Embeds `BaseAgent.shutdown` (lines 150-154): clears `running`, then evaluates
`self.memory.save` — `class AgentMemory` defines no `save` method (its
methods are `AgentMemory.methodNames`; persisting is called `save_memory`),
so the attribute lookup raises `AttributeError` after the flag is cleared.
Returns the post-effect state and the raised exception, if any. -/
def BaseAgent.shutdown (ag : AgentState) : AgentState × Option String :=
  let ag₁ := { ag with running := false }
  if hasMethod AgentMemory.methodNames "save" then
    (ag₁, none)
  else
    (ag₁, some "AttributeError: AgentMemory object has no attribute save")

/-! ## ContentPipeline (src/pipeline/manager.py) -/

/-- One per-run record of `self.pipeline_status[pipeline_id]`
(lines 65-71). -/
structure RunRec where
  status : String
  start_time : Nat
  current_stage : AgentRole
  completed_stages : List AgentRole
  errors : List String
  end_time : Option Nat
deriving DecidableEq, Repr

/-- Embeds `dict[k]` read on the status table. -/
def assocGet {β : Type} : List (String × β) → String → Option β
  | [], _ => none
  | (k, v) :: rest, key => if key = k then some v else assocGet rest key

/-- Embeds `dict[k] = v`: replaces an existing binding in place, else appends
(Python dicts keep insertion order). -/
def assocSet {β : Type} : List (String × β) → String → β → List (String × β)
  | [], key, val => [(key, val)]
  | (k, v) :: rest, key, val =>
      if key = k then (key, val) :: rest else (k, v) :: assocSet rest key val

/-- The whole mutable state `ContentPipeline` owns: the six agents and the
`pipeline_status` table.  (`PipelineMonitor` keeps its own `events` /
`metrics` dicts, which no claim's code path writes through the pipeline;
its reads enter `get_pipeline_status` as explicit parameters.) -/
structure SysState where
  agents : AgentTable
  pipeline_status : List (String × RunRec)
deriving DecidableEq, Repr

/-- Embeds `BaseAgent.send_message` viewed on the whole shared state: only the
agent table can change (the status table is untouched whatever happens,
and the function is total — it cannot raise). -/
def send_step (st : SysState) (r : AgentRole) (m : Message) : SysState :=
  { st with agents := send_message st.agents r m }

/-- Embeds `ContentPipeline.create_workflow` (lines 43-52). -/
def create_workflow : AgentRole → List AgentRole
  | .researcher => [.writer]
  | .writer => [.editor]
  | .editor => [.seo]
  | .seo => [.image]
  | .image => [.publisher]
  | .publisher => []

/-- Iteration order of `for agent in self.agents.values()` /
`for stage in AgentRole`. -/
def allRoles : List AgentRole :=
  [.researcher, .writer, .editor, .seo, .image, .publisher]

/-- Embeds `ContentPipeline.__init__` (lines 22-41): constructs the six agents and
points every agent's `agent_registry` at the shared `self.agents` dict
(all six roles registered); the status table starts empty. -/
def ContentPipeline.new (stsize : Nat) : SysState :=
  let mk := fun r => { BaseAgent.new r stsize with agent_registry := allRoles }
  { agents :=
      { researcher := mk .researcher
        writer := mk .writer
        editor := mk .editor
        seo := mk .seo
        image := mk .image
        publisher := mk .publisher }
    pipeline_status := [] }

/-- Embeds `ContentPipeline._generate_pipeline_id` (lines 153-157): `timestamp` is
`datetime.now().strftime("%Y%m%d_%H%M%S")`, a 15-character string with
one-second granularity.  `topic.lower().replace(" ", "_")` is embedded
character-wise (exact for a one-character pattern; ASCII case mapping). -/
def topic_slug (topic : String) : String :=
  ⟨topic.data.map fun c => if c = ' ' then '_' else c.toLower⟩

/-- Embeds `f"pipeline_TOPICSLUG_TIMESTAMP"`. -/
def generate_pipeline_id (topic : String) (timestamp : String) : String :=
  "pipeline_" ++ topic_slug topic ++ "_" ++ timestamp

/-- The record `start_pipeline` installs for a fresh run (lines 65-71). -/
def initial_run_rec (now : Nat) : RunRec :=
  { status := "started"
    start_time := now
    current_stage := .researcher
    completed_stages := []
    errors := []
    end_time := none }

/-- The seed message `start_pipeline` builds (lines 77-86). -/
def seed_message (topic : String) (style_guide : Option String)
    (target_length : Option Int) (pid : String) (now : Nat) : Message :=
  Message.create none (some .researcher)
    (.cdict
      [("research_topic", .pstr topic),
       ("style_guide", match style_guide with | none => .pnone | some s => .pstr s),
       ("target_length", match target_length with | none => .pnone | some n => .pint n),
       ("pipeline_id", .pstr pid)])
    "task" now

/-- The synchronous prefix of `ContentPipeline.start_pipeline`
(lines 54-94): generate the id, install the run record (status
`"started"`), build the seed message and `put` it on the researcher's
queue.  (Starting the monitor task and the agent loop tasks changes no
`SysState` field; the agent loops run as interleaved `agent_step`s.)
Returns the new state and `pipeline_id`. -/
def start_pipeline_setup (st : SysState) (topic : String)
    (style_guide : Option String) (target_length : Option Int) (now : Nat)
    (ts : String) : SysState × String :=
  let pid := generate_pipeline_id topic ts
  let st₁ := { st with
    pipeline_status := assocSet st.pipeline_status pid (initial_run_rec now) }
  let msg := seed_message topic style_guide target_length pid now
  let tbl := st₁.agents.set .researcher ((st₁.agents.get .researcher).enqueue msg)
  ({ st₁ with agents := tbl }, pid)

/-- Outcome of one body of the `while True` loop in
`ContentPipeline.monitor_pipeline` (lines 107-122). -/
inductive MonitorOutcome where
  | exited (rec' : RunRec)
  | looping (rec' : RunRec)
deriving DecidableEq, Repr

/-- One `monitor_pipeline` loop body: `break` when the status is already
terminal; else, if the publisher is the current stage and is among the
completed stages, mark the run `"completed"`, stamp `end_time` and `break`;
else `await asyncio.sleep(1)` and loop. -/
def monitor_body (rec : RunRec) (now : Nat) : MonitorOutcome :=
  if rec.status = "completed" ∨ rec.status = "failed" then
    .exited rec
  else if rec.current_stage = .publisher ∧ .publisher ∈ rec.completed_stages then
    .exited { rec with status := "completed", end_time := some now }
  else
    .looping rec

/-- Embeds `monitor_pipeline` run for at most `fuel` loop iterations: `some` is
the record at exit, `none` means the loop was still running after `fuel`
iterations (about `fuel` seconds of wall-clock waiting). -/
def monitor_run : Nat → RunRec → Nat → Option RunRec
  | 0, _, _ => none
  | fuel + 1, rec, now =>
      match monitor_body rec now with
      | .exited r => some r
      | .looping r => monitor_run fuel r now

/-- Embeds `ContentPipeline.start_pipeline` in full (lines 54-99): the setup, then
`await self.monitor_pipeline(pipeline_id)`, then `return pipeline_id`.
The call returns (with the run id) only if the monitor loop exits within
`fuel` iterations; `none` means the caller is still blocked in the
`await`. -/
def start_pipeline (st : SysState) (topic : String)
    (style_guide : Option String) (target_length : Option Int) (now : Nat)
    (ts : String) (fuel : Nat) : Option (SysState × String) :=
  let (st₁, pid) := start_pipeline_setup st topic style_guide target_length now ts
  match assocGet st₁.pipeline_status pid with
  | none => none
  | some rec =>
      (monitor_run fuel rec now).map fun rec' =>
        ({ st₁ with pipeline_status := assocSet st₁.pipeline_status pid rec' }, pid)

/-- The `except` clause of `start_pipeline` (lines 101-105): on an
exception inside the `try`, mark the run `"failed"` and append the error
text.  (The record always exists: the `try` begins by installing it.) -/
def start_pipeline_fail (st : SysState) (pid : String) (err : String) : SysState :=
  match assocGet st.pipeline_status pid with
  | none => st
  | some rec =>
      let rec' := { rec with status := "failed", errors := rec.errors ++ [err] }
      { st with pipeline_status := assocSet st.pipeline_status pid rec' }

/-- One `monitor_pipeline` loop body applied inside the shared state: reads
`self.pipeline_status[pipeline_id]` and writes back the body's result.
(The record exists whenever `monitor_pipeline` runs — it is only ever
awaited right after the record is installed.) -/
def monitor_sys_step (st : SysState) (pid : String) (now : Nat) : SysState :=
  match assocGet st.pipeline_status pid with
  | none => st
  | some rec =>
      match monitor_body rec now with
      | .exited r => { st with pipeline_status := assocSet st.pipeline_status pid r }
      | .looping r => { st with pipeline_status := assocSet st.pipeline_status pid r }

/-- Embeds `ContentPipeline.shutdown` (lines 159-166): `asyncio.gather` over every
agent's `BaseAgent.shutdown` — each clears its `running` flag and then
raises `AttributeError` on `self.memory.save`; `gather` propagates the
first exception, so `await self.monitor.shutdown()` (itself an
`AttributeError`: `PipelineMonitor` defines `cleanup`, not `shutdown`) is
never reached.  Returns the post-effect state and the propagated
exception, if any. -/
def ContentPipeline.shutdown (st : SysState) : SysState × Option String :=
  let st₁ := { st with agents := AgentTable.map (fun ag => (BaseAgent.shutdown ag).fst) st.agents }
  let errs := allRoles.filterMap fun r => (BaseAgent.shutdown (st.agents.get r)).snd
  match errs.head? with
  | some e => (st₁, some e)
  | none =>
      if hasMethod PipelineMonitor.methodNames "shutdown" then
        (st₁, none)
      else
        (st₁, some "AttributeError: PipelineMonitor object has no attribute shutdown")

/-! ## Status queries (src/pipeline/manager.py lines 124-151) -/

/-- A monitor event as `_calculate_stage_durations` reads it: a stage tag
and a timestamp (`e["stage"]`, `e["timestamp"]`). -/
structure StageEvent where
  stage : AgentRole
  timestamp : Nat
deriving DecidableEq, Repr

/-- Embeds `ContentPipeline._calculate_stage_durations` (lines 139-151): for each
role in enum order, filter its events; with at least two, the duration is
last timestamp minus first (as a signed number of seconds). -/
def calculate_stage_durations (events : List StageEvent) : List (String × Int) :=
  allRoles.filterMap fun stage =>
    let se := events.filter fun e => e.stage = stage
    match se.head?, se.getLast? with
    | some e0, some e1 =>
        if 2 ≤ se.length then
          some (stage.value, (e1.timestamp : Int) - (e0.timestamp : Int))
        else none
    | _, _ => none

/-- The two shapes of dictionary `get_pipeline_status` returns: the
not-found error dict, or the spread of the run record together with the
monitor metrics and the computed stage durations. -/
inductive StatusResult where
  | notFound
  | snapshot (rec : RunRec) (metrics : List (String × Prim))
      (stage_durations : List (String × Int))
deriving DecidableEq, Repr

/-- The `errors` list visible in a status result. -/
def StatusResult.errorsList : StatusResult → Option (List String)
  | .notFound => none
  | .snapshot rec _ _ => some rec.errors

/-- Embeds `ContentPipeline.get_pipeline_status` (lines 124-137):
`self.pipeline_status.get(pipeline_id, {})` and the `if not status`
truthiness guard (the installed records are never empty dicts), then the
snapshot merged with the monitor reads.  The monitor's `get_metrics` and
`get_events` reads enter as the parameters `mm` / `me`; the method only
reads `self.pipeline_status`, and the returned state is the unchanged
input. -/
def get_pipeline_status (st : SysState) (mm : String → List (String × Prim))
    (me : String → List StageEvent) (pid : String) : StatusResult × SysState :=
  match assocGet st.pipeline_status pid with
  | none => (.notFound, st)
  | some rec => (.snapshot rec (mm pid) (calculate_stage_durations (me pid)), st)

/-! ## The interleaved small-step semantics

One execution context per agent loop plus the orchestrator coroutines; a
step is whatever one context does to the shared `SysState` at one of its
atomic state-touching points.  The `start` step is the synchronous prefix
of `start_pipeline` (its `await monitor_pipeline` then runs as interleaved
`monitorStep`s); `startFail` is its `except` clause, which can only fire
while the installing invocation's record is still `"started"` (nothing
after `monitor_pipeline`'s terminal `break` can raise). -/

/-- The atomic state transitions the codebase can perform on `SysState`. -/
inductive Step (proc : ProcOracle) : SysState → SysState → Prop
  | agent (st : SysState) (r : AgentRole) (now : Nat) :
      Step proc st { st with agents := agent_step st.agents r proc now }
  | start (st : SysState) (topic : String) (sg : Option String)
      (tl : Option Int) (now : Nat) (ts : String) :
      Step proc st (start_pipeline_setup st topic sg tl now ts).fst
  | startFail (st : SysState) (pid err : String) (rec : RunRec)
      (hrec : assocGet st.pipeline_status pid = some rec)
      (hst : rec.status = "started") :
      Step proc st (start_pipeline_fail st pid err)
  | monitor (st : SysState) (pid : String) (now : Nat) :
      Step proc st (monitor_sys_step st pid now)
  | shutdown (st : SysState) :
      Step proc st (ContentPipeline.shutdown st).fst

/-- States reachable from a freshly constructed `ContentPipeline` (with the
default short-term memory size) by any interleaving of steps. -/
def Reachable (proc : ProcOracle) (st : SysState) : Prop :=
  Relation.ReflTransGen (Step proc) (ContentPipeline.new 100) st

/-- The step relation restricted to executions whose `start_pipeline`
invocations never collide on a run id (the generated id is absent from the
table): the sub-relation of `Step` under which per-run facts are stated. -/
inductive StepFresh (proc : ProcOracle) : SysState → SysState → Prop
  | agent (st : SysState) (r : AgentRole) (now : Nat) :
      StepFresh proc st { st with agents := agent_step st.agents r proc now }
  | start (st : SysState) (topic : String) (sg : Option String)
      (tl : Option Int) (now : Nat) (ts : String)
      (hfresh : assocGet st.pipeline_status (generate_pipeline_id topic ts) = none) :
      StepFresh proc st (start_pipeline_setup st topic sg tl now ts).fst
  | startFail (st : SysState) (pid err : String) (rec : RunRec)
      (hrec : assocGet st.pipeline_status pid = some rec)
      (hst : rec.status = "started") :
      StepFresh proc st (start_pipeline_fail st pid err)
  | monitor (st : SysState) (pid : String) (now : Nat) :
      StepFresh proc st (monitor_sys_step st pid now)
  | shutdown (st : SysState) :
      StepFresh proc st (ContentPipeline.shutdown st).fst

/-! ## General lemmas about the embedded operations -/

theorem assocGet_assocSet {β : Type} (l : List (String × β)) (k key : String)
    (v : β) :
    assocGet (assocSet l k v) key = if key = k then some v else assocGet l key := by
  induction l with
  | nil => simp [assocSet, assocGet]
  | cons hd tl ih =>
      obtain ⟨k', v'⟩ := hd
      by_cases hk : k = k'
      · subst hk
        by_cases hkey : key = k <;> simp [assocSet, assocGet, hkey]
      · by_cases hkey : key = k'
        · subst hkey
          simp [assocSet, assocGet, hk, Ne.symm hk]
        · simp [assocSet, assocGet, hk, hkey, ih]

theorem AgentRole.ofValue_value (r : AgentRole) :
    AgentRole.ofValue r.value = some r := by
  cases r <;> rfl

theorem AgentRole.value_ne_empty (r : AgentRole) : r.value ≠ "" := by
  cases r <;> decide

/-- The record `start_pipeline` installs never satisfies the monitor's
completion test, and the loop body leaves it unchanged, so the monitor
loop never exits, with any amount of fuel. -/
theorem monitor_run_initial_run_rec (fuel now t : Nat) :
    monitor_run fuel (initial_run_rec t) now = none := by
  induction fuel with
  | zero => rfl
  | succ n ih =>
      have hbody : monitor_body (initial_run_rec t) now = .looping (initial_run_rec t) := by
        simp [monitor_body, initial_run_rec]
      simp [monitor_run, hbody, ih]

theorem send_message_not_registered (tbl : AgentTable) (r : AgentRole)
    (m : Message)
    (h : ∀ rr, m.receiver = some rr → rr ∉ (tbl.get r).agent_registry) :
    send_message tbl r m = tbl := by
  unfold send_message
  cases hm : m.receiver with
  | none => rfl
  | some rr => simp [h rr hm]

/-! ## C9: run-id generation -/

/-- C9, counterexample: two `start_pipeline` invocations with different
payloads ("AI Health" vs "ai health") within the same wall-clock second
(the strftime format has one-second granularity) produce the *same*
`pipeline_id`, refuting "every invocation of start-run yields a runId
unique to that invocation". -/
theorem c9_runid_collision :
    (start_pipeline_setup (ContentPipeline.new 100) "AI Health" none none 0
        "20260101_120000").snd =
      (start_pipeline_setup
          (start_pipeline_setup (ContentPipeline.new 100) "AI Health" none none 0
            "20260101_120000").fst
          "ai health" none none 1 "20260101_120000").snd
    ∧ ("AI Health" : String) ≠ "ai health" := by
  decide

/-- C9 (amended): run ids generated with equal-length timestamp strings
(the strftime format is always 15 characters) coincide exactly when the
topic slugs and the second-granularity timestamps both coincide — so two
start-run invocations get distinct runIds iff they differ in topic slug or
fall in different seconds. -/
theorem c9_runid_uniqueness (t₁ t₂ ts₁ ts₂ : String)
    (hl : ts₁.length = ts₂.length) :
    generate_pipeline_id t₁ ts₁ = generate_pipeline_id t₂ ts₂ ↔
      (topic_slug t₁ = topic_slug t₂ ∧ ts₁ = ts₂) := by
  constructor
  · intro h
    unfold generate_pipeline_id at h
    rw [String.ext_iff] at h
    simp only [String.data_append, List.append_assoc] at h
    have h₂ := List.append_cancel_left h
    have hlen : ("_".data ++ ts₁.data).length = ("_".data ++ ts₂.data).length := by
      have : ts₁.data.length = ts₂.data.length := hl
      simp [List.length_append, this]
    obtain ⟨hslug, hts⟩ := List.append_inj' h₂ hlen
    refine ⟨String.ext hslug, String.ext (List.append_cancel_left hts)⟩
  · rintro ⟨h₁, h₂⟩
    unfold generate_pipeline_id
    rw [h₁, h₂]

/-- Witness for `c9_runid_uniqueness` at concrete inputs. -/
theorem c9_runid_uniqueness_witness :
    ("20260101_120000" : String).length = ("20260101_120001" : String).length
    ∧ (generate_pipeline_id "AI Health" "20260101_120000" =
          generate_pipeline_id "Quantum" "20260101_120001" ↔
        (topic_slug "AI Health" = topic_slug "Quantum"
          ∧ ("20260101_120000" : String) = "20260101_120001")) :=
  ⟨by decide,
   c9_runid_uniqueness "AI Health" "Quantum" "20260101_120000" "20260101_120001"
     (by decide)⟩

/-! ## C6: message serialization round-trip -/

/-- C6, counterexample: deserializing a serialized `Message` one clock
tick later yields a message whose `timestamp` (and hence `id`) differ from
the original — `from_dict` ignores the stored `id`/`timestamp` and stamps
the deserialization-time clock — so the round-trip is *not* field-for-field
equal. -/
theorem c6_roundtrip_not_identity :
    (let m := Message.create (some .writer) (some .researcher)
        (.cdict [("test", .pstr "data")]) "task" 0
     ((m.to_dict.bind fun d => Message.from_dict d 1).isSome = true)
     ∧ (m.to_dict.bind fun d => Message.from_dict d 1) ≠ some m
     ∧ (m.to_dict.bind fun d => Message.from_dict d 1).map Message.timestamp ≠
         some m.timestamp) := by
  decide

/-- C6 (amended): for a message with a (non-`None`) receiver, serialize
then deserialize succeeds and reproduces `sender`, `receiver`, `content`
and `message_type` exactly, while `timestamp` and `id` are regenerated from
the deserialization-time clock; the round-trip is the identity precisely
when deserialization happens at the original timestamp (and the original
id was the generated one). -/
theorem c6_roundtrip_fields (m : Message) (r : AgentRole)
    (hr : m.receiver = some r) (now : Nat) :
    ∃ d m', m.to_dict = some d ∧ Message.from_dict d now = some m'
      ∧ m'.sender = m.sender ∧ m'.receiver = m.receiver
      ∧ m'.content = m.content ∧ m'.message_type = m.message_type
      ∧ m'.timestamp = now
      ∧ m'.id = generate_id now m.sender m.receiver
      ∧ (now = m.timestamp →
          m.id = generate_id m.timestamp m.sender m.receiver → m' = m) := by
  have hd : m.to_dict = some
      { id := m.id
        sender := m.sender.map AgentRole.value
        receiver := r.value
        content := m.content
        message_type := m.message_type
        timestamp := m.timestamp } := by
    unfold Message.to_dict
    rw [hr]
  refine ⟨_, Message.create m.sender (some r) m.content m.message_type now,
    hd, ?_, ?_, ?_, ?_, ?_, ?_, ?_, ?_⟩
  · unfold Message.from_dict
    cases hs : m.sender with
    | none => simp [hs, AgentRole.ofValue_value]
    | some rs =>
        simp [hs, AgentRole.ofValue_value, AgentRole.value_ne_empty rs]
  · rfl
  · rw [hr]; rfl
  · rfl
  · rfl
  · rfl
  · rw [hr]; rfl
  · intro h1 h2
    subst h1
    cases m with
    | mk s rcv c mt ts mid =>
        simp only [Message.receiver] at hr
        subst hr
        simp only [Message.id, Message.timestamp, Message.sender,
          Message.receiver] at h2
        simp [Message.create, h2]

/-- A concrete message for the `c6_roundtrip_fields` witness. -/
def msgC6 : Message :=
  Message.create (some .writer) (some .researcher)
    (.cdict [("test", .pstr "data")]) "task" 5

/-- Witness for `c6_roundtrip_fields` at a concrete message, with the
deserialization clock equal to the creation clock. -/
theorem c6_roundtrip_fields_witness :
    ∃ d m', msgC6.to_dict = some d ∧ Message.from_dict d 5 = some m'
      ∧ m'.sender = msgC6.sender ∧ m'.receiver = msgC6.receiver
      ∧ m'.content = msgC6.content ∧ m'.message_type = msgC6.message_type
      ∧ m'.timestamp = 5
      ∧ m'.id = generate_id 5 msgC6.sender msgC6.receiver
      ∧ (5 = msgC6.timestamp →
          msgC6.id = generate_id msgC6.timestamp msgC6.sender msgC6.receiver →
          m' = msgC6) :=
  c6_roundtrip_fields msgC6 .researcher rfl 5

/-! ## C10: unknown message types -/

/-- C10, counterexample: the claim quantifies over *every* message, but for
a message with an unknown type **and** a `None` receiver the `try` block
raises before reaching the unknown-type branch (`to_dict` inside
`memory.store_interaction` hits `None.value`), so `process_message`
returns an error reply — not `None`. -/
theorem c10_unknown_type_counterexample :
    (let ag := BaseAgent.new .researcher 100
     let m := Message.create (some .writer) none (.cstr "hi") "status" 7
     (m.message_type ∉ (["task", "query", "control"] : List String))
     ∧ (process_message ag (fun _ _ => Except.ok none) m 7).snd ≠ none) := by
  decide

/-- C10 (amended): for every message that *has* a receiver (as every
mailbox-delivered message does) whose type is none of task/query/control —
the `error` kind included — `process_message` stores the interaction, logs
a warning, returns `none`, and leaves the `running` flag unchanged; an
error reply delivered to a mailbox is therefore discarded, not handled. -/
theorem c10_unknown_type_discarded (ag : AgentState) (proc : ProcOracle)
    (m : Message) (now : Nat)
    (hr : m.receiver ≠ none)
    (ht : m.message_type ≠ "task")
    (hq : m.message_type ≠ "query")
    (hc : m.message_type ≠ "control") :
    (process_message ag proc m now).snd = none
    ∧ ((process_message ag proc m now).fst).running = ag.running := by
  obtain ⟨r, hr'⟩ := Option.ne_none_iff_exists'.mp hr
  unfold process_message
  have hstore : ag.memory.store_interaction m now =
      some { ag.memory with
        short_term := dequeAppend ag.memory.maxlen ag.memory.short_term
          { timestamp := now
            content := { id := m.id
                         sender := m.sender.map AgentRole.value
                         receiver := r.value
                         content := m.content
                         message_type := m.message_type
                         timestamp := m.timestamp }
            itype := "Message" } } := by
    unfold AgentMemory.store_interaction format_interaction Message.to_dict
    rw [hr']
    rfl
  rw [hstore]
  simp [ht, hq, hc]

/-- Witness for `c10_unknown_type_discarded`: an `error`-kind reply
delivered to the researcher's mailbox is dropped. -/
theorem c10_unknown_type_discarded_witness :
    (let ag := BaseAgent.new .researcher 100
     let m := Message.create (some .writer) (some .researcher)
        (.cdict [("error", .pstr "boom")]) "error" 7
     (process_message ag (fun _ _ => Except.ok none) m 7).snd = none
     ∧ ((process_message ag (fun _ _ => Except.ok none) m 7).fst).running =
         (BaseAgent.new .researcher 100).running) :=
  c10_unknown_type_discarded (BaseAgent.new .researcher 100)
    (fun _ _ => Except.ok none)
    (Message.create (some .writer) (some .researcher)
      (.cdict [("error", .pstr "boom")]) "error" 7)
    7 (by decide) (by decide) (by decide) (by decide)

/-! ## C4: failure handling in the worker loop -/

/-- C4, counterexample: when the original message's sender is `None` (the
seed message) and the processor raises, the error reply's `receiver` is
`None` — there is no dead-letter sink — and handing it to `send_message`
drops it, leaving every mailbox and the whole state unchanged. -/
theorem c4_no_dead_letter_sink :
    (let tbl := (ContentPipeline.new 100).agents
     let m := seed_message "ai" none none "pipeline_ai_20260101_120000" 0
     let res := process_message (tbl.get .researcher)
        (fun _ _ => Except.error "boom") m 1
     (res.snd.map Message.receiver = some none)
     ∧ (res.snd.map Message.sender = some (some .researcher))
     ∧ (∀ out, res.snd = some out → send_message tbl .researcher out = tbl)) := by
  refine ⟨by decide, by decide, ?_⟩
  intro out hout
  have : out = Message.create (some .researcher) none
      (.cdict [("error", .pstr "boom"),
               ("original_message_id",
                .pstr "0-None-AgentRole.RESEARCHER")]) "error" 1 := by
    have h := hout
    rw [show (process_message ((ContentPipeline.new 100).agents.get .researcher)
        (fun _ _ => Except.error "boom")
        (seed_message "ai" none none "pipeline_ai_20260101_120000" 0) 1).snd =
        some (Message.create (some .researcher) none
          (.cdict [("error", .pstr "boom"),
                   ("original_message_id",
                    .pstr "0-None-AgentRole.RESEARCHER")]) "error" 1) from by decide] at h
    exact (Option.some.inj h).symm
  subst this
  decide

/-- C4 (amended): when a task message's processing raises, the worker
does not stop: `process_message` catches the exception and returns an
`error`-kind message addressed back to the original sender — when the
sender is `None` the reply's receiver is `None` and the subsequent send
drops it (there is no dead-letter sink) — whose content carries the
failure description and the original message id, and the agent's `running`
flag is unchanged, so the loop continues with later messages. -/
theorem c4_error_reply (ag : AgentState) (proc : ProcOracle) (m : Message)
    (now : Nat) (e : String) (r : AgentRole)
    (htask : m.message_type = "task")
    (hr : m.receiver = some r)
    (hproc : proc ag.role m = Except.error e) :
    (process_message ag proc m now).snd =
      some (Message.create (some ag.role) m.sender
        (.cdict [("error", .pstr e), ("original_message_id", .pstr m.id)])
        "error" now)
    ∧ ((process_message ag proc m now).fst).running = ag.running := by
  unfold process_message
  have hstore : ag.memory.store_interaction m now ≠ none := by
    unfold AgentMemory.store_interaction format_interaction Message.to_dict
    rw [hr]
    simp
  cases hs : ag.memory.store_interaction m now with
  | none => exact absurd hs hstore
  | some mem' =>
      simp [htask, hproc, create_error_message]

/-- Witness for `c4_error_reply` at a concrete seed-like message whose
sender is `None`. -/
theorem c4_error_reply_witness :
    (let ag := (ContentPipeline.new 100).agents.get .researcher
     let m := seed_message "ai" none none "pipeline_ai_20260101_120000" 0
     (process_message ag (fun _ _ => Except.error "boom") m 1).snd =
       some (Message.create (some ag.role) m.sender
         (.cdict [("error", .pstr "boom"),
                  ("original_message_id", .pstr m.id)]) "error" 1)
     ∧ ((process_message ag (fun _ _ => Except.error "boom") m 1).fst).running =
         ag.running) :=
  c4_error_reply ((ContentPipeline.new 100).agents.get .researcher)
    (fun _ _ => Except.error "boom")
    (seed_message "ai" none none "pipeline_ai_20260101_120000" 0)
    1 "boom" .researcher (by decide) (by decide) rfl

/-! ## C3: routing to an unregistered receiver -/

/-- C3, counterexample: sending a message whose receiver resolves to no
registry entry neither raises nor fails the owning run — the message is
silently dropped (only `logger.error` runs).  Shown both for a freshly
constructed `BaseAgent` (empty registry, a role receiver) and for the full
pipeline with a started run (a `None` receiver): the entire state,
run status included, is unchanged. -/
theorem c3_unregistered_silently_dropped :
    (let st := (start_pipeline_setup (ContentPipeline.new 100) "ai" none none 0
        "20260101_120000").fst
     let dead := Message.create (some .researcher) none
        (.cdict [("error", .pstr "x")]) "error" 1
     send_step st .researcher dead = st
     ∧ (assocGet (send_step st .researcher dead).pipeline_status
          "pipeline_ai_20260101_120000").map RunRec.status = some "started")
    ∧ (let bare := AgentTable.map (fun ag => { ag with agent_registry := [] })
        (ContentPipeline.new 100).agents
       let m := Message.create (some .researcher) (some .writer) (.cstr "t")
        "task" 1
       send_message bare .researcher m = bare) := by
  decide

/-- C3 (amended): `send_message` resolves the receiver in the sender's
`agent_registry`; when the receiver is absent (an unregistered role, or
`None`) the failure is only logged: no exception is raised, the message is
dropped, and no state — the run-status table included — changes. -/
theorem c3_unregistered_send_noop (st : SysState) (r : AgentRole) (m : Message)
    (h : ∀ rr, m.receiver = some rr → rr ∉ (st.agents.get r).agent_registry) :
    send_step st r m = st := by
  unfold send_step
  rw [send_message_not_registered st.agents r m h]

/-- Witness for `c3_unregistered_send_noop`: the dead-letter error reply
(receiver `None`) vanishes in the started pipeline. -/
theorem c3_unregistered_send_noop_witness :
    send_step
      (start_pipeline_setup (ContentPipeline.new 100) "ai" none none 0
        "20260101_120000").fst
      .researcher
      (Message.create (some .researcher) none (.cdict [("error", .pstr "x")])
        "error" 1) =
    (start_pipeline_setup (ContentPipeline.new 100) "ai" none none 0
        "20260101_120000").fst :=
  c3_unregistered_send_noop _ .researcher _ (fun _ hrr => Option.noConfusion hrr)

/-! ## C8: the status query -/

/-- C8: `get_pipeline_status` on an unknown runId returns the
`Pipeline not found` error result and leaves the state unchanged; on a
known runId it returns the snapshot of the run record — its `errors` list
included — merged with the monitor metrics and stage durations, again
without changing the state. -/
theorem c8_get_status_spec (st : SysState) (mm : String → List (String × Prim))
    (me : String → List StageEvent) (pid : String) :
    (assocGet st.pipeline_status pid = none →
        get_pipeline_status st mm me pid = (.notFound, st))
    ∧ (∀ rec, assocGet st.pipeline_status pid = some rec →
        get_pipeline_status st mm me pid =
            (.snapshot rec (mm pid) (calculate_stage_durations (me pid)), st)
          ∧ (get_pipeline_status st mm me pid).fst.errorsList = some rec.errors
          ∧ (get_pipeline_status st mm me pid).snd = st) := by
  constructor
  · intro h
    unfold get_pipeline_status
    rw [h]
  · intro rec h
    unfold get_pipeline_status
    rw [h]
    exact ⟨rfl, rfl, rfl⟩

/-- Witness for `c8_get_status_spec`: a started pipeline queried for an
unknown and for its own runId. -/
theorem c8_get_status_spec_witness :
    (let st := (start_pipeline_setup (ContentPipeline.new 100) "ai" none none 0
        "20260101_120000").fst
     get_pipeline_status st (fun _ => []) (fun _ => []) "nope" = (.notFound, st)
     ∧ (get_pipeline_status st (fun _ => []) (fun _ => [])
          "pipeline_ai_20260101_120000" =
            (.snapshot (initial_run_rec 0) [] (calculate_stage_durations []), st)
        ∧ (get_pipeline_status st (fun _ => []) (fun _ => [])
            "pipeline_ai_20260101_120000").fst.errorsList =
              some (initial_run_rec 0).errors
        ∧ (get_pipeline_status st (fun _ => []) (fun _ => [])
            "pipeline_ai_20260101_120000").snd = st)) :=
  ⟨(c8_get_status_spec _ _ _ "nope").1 (by decide),
   (c8_get_status_spec _ _ _ "pipeline_ai_20260101_120000").2 (initial_run_rec 0)
     (by decide)⟩

/-! ## C7: shutdown -/

/-- C7 (code bug): `ContentPipeline.shutdown` always raises.  Every
agent's `running` flag is cleared first, but `BaseAgent.shutdown` then
evaluates `self.memory.save` and `AgentMemory` has no `save` method
(persisting is `save_memory`), so an `AttributeError` propagates out of
`asyncio.gather`; `self.monitor.shutdown()` — also nonexistent
(`PipelineMonitor` has `cleanup`) — is never reached.  So shutdown does
request every worker to stop, but never "releases resources without
raising". -/
theorem c7_shutdown_always_raises (st : SysState) :
    (ContentPipeline.shutdown st).snd =
      some "AttributeError: AgentMemory object has no attribute save"
    ∧ ∀ r, (((ContentPipeline.shutdown st).fst).agents.get r).running = false := by
  constructor
  · rfl
  · intro r
    cases r <;> rfl

/-! ## C1: start-run is not non-blocking -/

/-- C1, counterexample: `start_pipeline` does *not* return immediately —
after installing the run record and enqueuing the seed message it awaits
`monitor_pipeline`, and even sixty polling iterations (a minute of
waiting) later the call has not returned the runId. -/
theorem c1_start_does_not_return :
    start_pipeline (ContentPipeline.new 100) "ai" none none 0
      "20260101_120000" 60 = none := by
  decide

/-- C1 (amended): `start_pipeline` creates the run record (status
`"started"`) and enqueues the seed message to the researcher's mailbox,
but then blocks in `monitor_pipeline`: it returns the runId only once the
run's status is terminal, and — as no code path ever updates
`completed_stages` or `current_stage` — the installed record never passes
the monitor's exit test, so the call never returns, whatever the fuel. -/
theorem c1_start_setup_then_blocks (topic : String) (sg : Option String)
    (tl : Option Int) (now : Nat) (ts : String) (fuel : Nat) :
    (assocGet
        (start_pipeline_setup (ContentPipeline.new 100) topic sg tl now ts).fst.pipeline_status
        (start_pipeline_setup (ContentPipeline.new 100) topic sg tl now ts).snd =
      some (initial_run_rec now))
    ∧ ((start_pipeline_setup (ContentPipeline.new 100) topic sg tl now
          ts).fst.agents.get .researcher).message_queue =
        [seed_message topic sg tl (generate_pipeline_id topic ts) now]
    ∧ start_pipeline (ContentPipeline.new 100) topic sg tl now ts fuel = none := by
  refine ⟨?_, ?_, ?_⟩
  · simp [start_pipeline_setup, ContentPipeline.new, assocSet, assocGet,
      AgentTable.get, AgentTable.set]
  · simp [start_pipeline_setup, ContentPipeline.new, assocSet,
      AgentTable.get, AgentTable.set, AgentState.enqueue, BaseAgent.new]
  · unfold start_pipeline
    simp [start_pipeline_setup, ContentPipeline.new, assocSet, assocGet,
      monitor_run_initial_run_rec]

/-! ## Invariants of the interleaved semantics (C2, C5) -/

/-- No code path ever records stage progress: every run record still has
an empty `completed_stages`, the initial `current_stage`, and a status
other than `"completed"`. -/
def NoProgressInv (st : SysState) : Prop :=
  ∀ pid rec, assocGet st.pipeline_status pid = some rec →
    rec.completed_stages = [] ∧ rec.current_stage = .researcher
      ∧ rec.status ≠ "completed"

theorem setup_fst_pipeline_status (st : SysState) (topic : String)
    (sg : Option String) (tl : Option Int) (now : Nat) (ts : String) :
    ((start_pipeline_setup st topic sg tl now ts).fst).pipeline_status =
      assocSet st.pipeline_status (generate_pipeline_id topic ts)
        (initial_run_rec now) :=
  rfl

theorem shutdown_fst_pipeline_status (st : SysState) :
    ((ContentPipeline.shutdown st).fst).pipeline_status = st.pipeline_status :=
  rfl

theorem step_preserves_noProgress {proc : ProcOracle} {a b : SysState}
    (hs : Step proc a b) (ha : NoProgressInv a) : NoProgressInv b := by
  cases hs with
  | agent r now => exact ha
  | start topic sg tl now ts =>
      intro pid rec h
      rw [setup_fst_pipeline_status, assocGet_assocSet] at h
      split at h
      · cases h
        exact ⟨rfl, rfl, by simp [initial_run_rec]⟩
      · exact ha pid rec h
  | startFail pid₀ err rec₀ hrec hst =>
      intro pid rec h
      unfold start_pipeline_fail at h
      rw [hrec] at h
      rw [assocGet_assocSet] at h
      split at h
      · cases h
        obtain ⟨h1, h2, _⟩ := ha pid₀ rec₀ hrec
        exact ⟨h1, h2, by simp⟩
      · exact ha pid rec h
  | monitor pid₀ now =>
      intro pid rec h
      unfold monitor_sys_step at h
      cases hrec : assocGet a.pipeline_status pid₀ with
      | none =>
          simp only [hrec] at h
          exact ha pid rec h
      | some rec₀ =>
          simp only [hrec] at h
          obtain ⟨h1, h2, h3⟩ := ha pid₀ rec₀ hrec
          have hcond : ¬(rec₀.current_stage = AgentRole.publisher
              ∧ AgentRole.publisher ∈ rec₀.completed_stages) := by
            rw [h1, h2]
            simp
          have hbody : monitor_body rec₀ now = .exited rec₀
              ∨ monitor_body rec₀ now = .looping rec₀ := by
            unfold monitor_body
            by_cases hterm : rec₀.status = "completed" ∨ rec₀.status = "failed"
            · left
              simp [hterm]
            · right
              simp [hterm, hcond]
          rcases hbody with hb | hb <;>
            · simp only [hb] at h
              rw [assocGet_assocSet] at h
              split at h
              · cases h
                exact ⟨h1, h2, h3⟩
              · exact ha pid rec h
  | shutdown => exact ha

/-- C2 (code bug): in every state reachable by any interleaving from a
fresh pipeline, every run record has empty `completed_stages`, still
points at the researcher stage, and its status is never `"completed"` —
nothing in the codebase ever records stage completion, so
`monitor_pipeline`'s exit test can never pass and no started run ever
reaches `completed`; the claimed liveness fails. -/
theorem c2_completed_unreachable (proc : ProcOracle) (st : SysState)
    (h : Reachable proc st) :
    ∀ pid rec, assocGet st.pipeline_status pid = some rec →
      rec.completed_stages = [] ∧ rec.current_stage = .researcher
        ∧ rec.status ≠ "completed" := by
  unfold Reachable at h
  induction h with
  | refl =>
      intro pid rec h
      exact Option.noConfusion h
  | tail _ hbc ih => exact step_preserves_noProgress hbc ih

/-- Witness for `c2_completed_unreachable` at a concrete one-step
execution. -/
theorem c2_completed_unreachable_witness :
    (initial_run_rec 0).completed_stages = []
    ∧ (initial_run_rec 0).current_stage = AgentRole.researcher
    ∧ (initial_run_rec 0).status ≠ "completed" :=
  c2_completed_unreachable (fun _ _ => Except.ok none) _
    (Relation.ReflTransGen.single
      (Step.start (ContentPipeline.new 100) "ai" none none 0 "20260101_120000"))
    "pipeline_ai_20260101_120000" (initial_run_rec 0) (by decide)

/-! ## C5: the run-status state machine -/

/-- C5, counterexample: a freshly started run's status is the string
`"started"` — not `pending` and not `running` — so the claimed
`pending -> running -> terminal` chain does not describe the code's
status values. -/
theorem c5_no_pending_running :
    ((assocGet (start_pipeline_setup (ContentPipeline.new 100) "ai" none none 0
        "20260101_120000").fst.pipeline_status
        "pipeline_ai_20260101_120000").map RunRec.status = some "started")
    ∧ ("started" : String) ≠ "pending" ∧ ("started" : String) ≠ "running"
    ∧ ("started" : String) ≠ "completed" ∧ ("started" : String) ≠ "failed" := by
  decide

/-- Every run record's status is one of the three strings the code ever
assigns. -/
def StatusValsInv (st : SysState) : Prop :=
  ∀ pid rec, assocGet st.pipeline_status pid = some rec →
    rec.status = "started" ∨ rec.status = "completed" ∨ rec.status = "failed"

theorem step_preserves_statusVals {proc : ProcOracle} {a b : SysState}
    (hs : Step proc a b) (ha : StatusValsInv a) : StatusValsInv b := by
  cases hs with
  | agent r now => exact ha
  | start topic sg tl now ts =>
      intro pid rec h
      rw [setup_fst_pipeline_status, assocGet_assocSet] at h
      split at h
      · cases h
        left
        rfl
      · exact ha pid rec h
  | startFail pid₀ err rec₀ hrec hst =>
      intro pid rec h
      unfold start_pipeline_fail at h
      simp only [hrec] at h
      rw [assocGet_assocSet] at h
      split at h
      · cases h
        right
        right
        rfl
      · exact ha pid rec h
  | monitor pid₀ now =>
      intro pid rec h
      unfold monitor_sys_step at h
      cases hrec : assocGet a.pipeline_status pid₀ with
      | none =>
          simp only [hrec] at h
          exact ha pid rec h
      | some rec₀ =>
          simp only [hrec] at h
          by_cases hterm : rec₀.status = "completed" ∨ rec₀.status = "failed"
          · have hb : monitor_body rec₀ now = .exited rec₀ := by
              unfold monitor_body
              rw [if_pos hterm]
            simp only [hb] at h
            rw [assocGet_assocSet] at h
            split at h
            · cases h
              exact ha pid₀ _ hrec
            · exact ha pid rec h
          · by_cases hpub : rec₀.current_stage = AgentRole.publisher
                ∧ AgentRole.publisher ∈ rec₀.completed_stages
            · have hb : monitor_body rec₀ now =
                  .exited { rec₀ with status := "completed", end_time := some now } := by
                unfold monitor_body
                rw [if_neg hterm, if_pos hpub]
              simp only [hb] at h
              rw [assocGet_assocSet] at h
              split at h
              · cases h
                right
                left
                rfl
              · exact ha pid rec h
            · have hb : monitor_body rec₀ now = .looping rec₀ := by
                unfold monitor_body
                rw [if_neg hterm, if_neg hpub]
              simp only [hb] at h
              rw [assocGet_assocSet] at h
              split at h
              · cases h
                exact ha pid₀ _ hrec
              · exact ha pid rec h
  | shutdown => exact ha

/-- The monotonicity triple, trivially true when the record is
unchanged. -/
theorem mono_triple_of_eq {rec rec' : RunRec} (he : rec' = rec) :
    (rec.status = "completed" → rec' = rec)
    ∧ (rec.status = "failed" → rec' = rec)
    ∧ (rec'.status = "completed" → rec.status ≠ "completed" →
        rec.current_stage = AgentRole.publisher
        ∧ AgentRole.publisher ∈ rec.completed_stages) := by
  subst he
  exact ⟨fun _ => rfl, fun _ => rfl, fun hc hnc => absurd hc hnc⟩

theorem stepFresh_status_monotone {proc : ProcOracle} {a b : SysState}
    (hs : StepFresh proc a b) (pid : String) (rec rec' : RunRec)
    (h : assocGet a.pipeline_status pid = some rec)
    (h' : assocGet b.pipeline_status pid = some rec') :
    (rec.status = "completed" → rec' = rec)
    ∧ (rec.status = "failed" → rec' = rec)
    ∧ (rec'.status = "completed" → rec.status ≠ "completed" →
        rec.current_stage = AgentRole.publisher
        ∧ AgentRole.publisher ∈ rec.completed_stages) := by
  cases hs with
  | agent r now =>
      exact mono_triple_of_eq (Option.some.inj (h.symm.trans h')).symm
  | start topic sg tl now ts hfresh =>
      rw [setup_fst_pipeline_status, assocGet_assocSet] at h'
      split at h'
      · rename_i hpid
        rw [hpid, hfresh] at h
        exact Option.noConfusion h
      · exact mono_triple_of_eq (Option.some.inj (h.symm.trans h')).symm
  | startFail pid₀ err rec₀ hrec hst =>
      unfold start_pipeline_fail at h'
      simp only [hrec] at h'
      rw [assocGet_assocSet] at h'
      split at h'
      · rename_i hpid
        rw [hpid] at h
        obtain rfl : rec = rec₀ := Option.some.inj (h.symm.trans hrec)
        cases h'
        refine ⟨?_, ?_, ?_⟩
        · intro hc
          exact absurd (hst.symm.trans hc) (by decide)
        · intro hc
          exact absurd (hst.symm.trans hc) (by decide)
        · intro hc
          have hc' : ("failed" : String) = "completed" := hc
          exact absurd hc' (by decide)
      · exact mono_triple_of_eq (Option.some.inj (h.symm.trans h')).symm
  | monitor pid₀ now =>
      unfold monitor_sys_step at h'
      cases hrec : assocGet a.pipeline_status pid₀ with
      | none =>
          simp only [hrec] at h'
          exact mono_triple_of_eq (Option.some.inj (h.symm.trans h')).symm
      | some rec₀ =>
          simp only [hrec] at h'
          by_cases hterm : rec₀.status = "completed" ∨ rec₀.status = "failed"
          · have hb : monitor_body rec₀ now = .exited rec₀ := by
              unfold monitor_body
              rw [if_pos hterm]
            simp only [hb] at h'
            rw [assocGet_assocSet] at h'
            split at h'
            · rename_i hpid
              rw [hpid] at h
              obtain rfl : rec = rec₀ := Option.some.inj (h.symm.trans hrec)
              cases h'
              exact mono_triple_of_eq rfl
            · exact mono_triple_of_eq (Option.some.inj (h.symm.trans h')).symm
          · by_cases hpub : rec₀.current_stage = AgentRole.publisher
                ∧ AgentRole.publisher ∈ rec₀.completed_stages
            · have hb : monitor_body rec₀ now =
                  .exited { rec₀ with status := "completed", end_time := some now } := by
                unfold monitor_body
                rw [if_neg hterm, if_pos hpub]
              simp only [hb] at h'
              rw [assocGet_assocSet] at h'
              split at h'
              · rename_i hpid
                rw [hpid] at h
                obtain rfl : rec = rec₀ := Option.some.inj (h.symm.trans hrec)
                cases h'
                refine ⟨?_, ?_, ?_⟩
                · intro hc
                  exact absurd (Or.inl hc) hterm
                · intro hc
                  exact absurd (Or.inr hc) hterm
                · intro _ _
                  exact hpub
              · exact mono_triple_of_eq (Option.some.inj (h.symm.trans h')).symm
            · have hb : monitor_body rec₀ now = .looping rec₀ := by
                unfold monitor_body
                rw [if_neg hterm, if_neg hpub]
              simp only [hb] at h'
              rw [assocGet_assocSet] at h'
              split at h'
              · rename_i hpid
                rw [hpid] at h
                obtain rfl : rec = rec₀ := Option.some.inj (h.symm.trans hrec)
                cases h'
                exact mono_triple_of_eq rfl
              · exact mono_triple_of_eq (Option.some.inj (h.symm.trans h')).symm
  | shutdown =>
      rw [shutdown_fst_pipeline_status] at h'
      exact mono_triple_of_eq (Option.some.inj (h.symm.trans h')).symm

/-- C5 (amended): the run status takes only the values `"started"`,
`"completed"`, `"failed"` (there is no `pending`/`running`) in every
reachable state; and — provided no `start_pipeline` invocation reuses an
existing run id (`StepFresh`) — a step never regresses a terminal status,
and a record's status changes to `"completed"` only when the record's
current stage is the terminal `publisher` stage and `publisher` is among
its completed stages. -/
theorem c5_status_machine :
    (∀ (proc : ProcOracle) (st : SysState), Reachable proc st →
        ∀ pid rec, assocGet st.pipeline_status pid = some rec →
          rec.status = "started" ∨ rec.status = "completed"
            ∨ rec.status = "failed")
    ∧ (∀ (proc : ProcOracle) (a b : SysState), StepFresh proc a b →
        ∀ pid rec rec',
          assocGet a.pipeline_status pid = some rec →
          assocGet b.pipeline_status pid = some rec' →
          (rec.status = "completed" → rec' = rec)
          ∧ (rec.status = "failed" → rec' = rec)
          ∧ (rec'.status = "completed" → rec.status ≠ "completed" →
              rec.current_stage = AgentRole.publisher
              ∧ AgentRole.publisher ∈ rec.completed_stages)) := by
  constructor
  · intro proc st h
    unfold Reachable at h
    induction h with
    | refl =>
        intro pid rec h
        exact Option.noConfusion h
    | tail _ hbc ih => exact step_preserves_statusVals hbc ih
  · intro proc a b hs pid rec rec' h h'
    exact stepFresh_status_monotone hs pid rec rec' h h'

/-- Witness for `c5_status_machine`: part one at a one-step execution,
part two at a fresh second start. -/
theorem c5_status_machine_witness :
    ((initial_run_rec 0).status = "started"
      ∨ (initial_run_rec 0).status = "completed"
      ∨ (initial_run_rec 0).status = "failed")
    ∧ (((initial_run_rec 0).status = "completed" →
          initial_run_rec 0 = initial_run_rec 0)
       ∧ ((initial_run_rec 0).status = "failed" →
          initial_run_rec 0 = initial_run_rec 0)
       ∧ ((initial_run_rec 0).status = "completed" →
          (initial_run_rec 0).status ≠ "completed" →
            (initial_run_rec 0).current_stage = AgentRole.publisher
            ∧ AgentRole.publisher ∈ (initial_run_rec 0).completed_stages)) :=
  ⟨c5_status_machine.1 (fun _ _ => Except.ok none) _
      (Relation.ReflTransGen.single
        (Step.start (ContentPipeline.new 100) "ai" none none 0 "20260101_120000"))
      "pipeline_ai_20260101_120000" (initial_run_rec 0) (by decide),
   c5_status_machine.2 (fun _ _ => Except.ok none) _ _
      (StepFresh.start
        (start_pipeline_setup (ContentPipeline.new 100) "ai" none none 0
          "20260101_120000").fst
        "b" none none 1 "20260101_120001" (by decide))
      "pipeline_ai_20260101_120000" (initial_run_rec 0) (initial_run_rec 0)
      (by decide) (by decide)⟩

end Multiagent
